import Mathlib

/-!
Verification of the bank-statement parsing and reconciliation core of the
BudgetTracker repository (src/BudgetTracker.py), shallowly embedded in Lean.

Conventions of the embedding:
* Python strings are Lean `String`s; all operations (strip, lower, substring
  search) are implemented over the underlying `List Char`.
* Python floats are modelled as `ℚ` (the amounts in statements are decimals).
* A spreadsheet cell is a `Cell`: a missing value (pandas `NaN`), a string,
  a number, or a date value.  `pd.isna` holds exactly of the missing value.
* Digits are ASCII digits (the documents the parser targets are ASCII).
* Rendering of a non-integral numeric cell to text is approximate
  (`cellToString`); no claim ever stringifies a non-integral numeric cell.
* Fallible Python code (exceptions) is modelled with `Option` / `Except` and
  with the explicit skip/flag behaviour of the `try/except` blocks.
-/

namespace BudgetTracker

/-! ## Characters and strings -/

/-- Python `str.lower()` restricted to per-character lowering. -/
def pyLower (s : String) : String := ⟨s.data.map Char.toLower⟩

/-- Whitespace test used by Python `str.strip()` (ASCII whitespace). -/
def isWS (c : Char) : Bool := c.isWhitespace

/-- Drop leading and trailing whitespace from a character list. -/
def trimAux (l : List Char) : List Char :=
  ((l.dropWhile isWS).reverse.dropWhile isWS).reverse

/-- Python `str.strip()`. -/
def pyStrip (s : String) : String := ⟨trimAux s.data⟩

/-- Boolean list-prefix test. -/
def seqIsPref : List Char → List Char → Bool
  | [], _ => true
  | _ :: _, [] => false
  | a :: p, b :: l => a == b && seqIsPref p l

/-- Boolean contiguous-subsequence test: does `p` occur inside `l`? -/
def seqIsSub (p l : List Char) : Bool :=
  match l with
  | [] => p.isEmpty
  | _ :: t => seqIsPref p l || seqIsSub p t

/-- Python `pat in s` substring containment. -/
def containsSub (s pat : String) : Bool := seqIsSub pat.data s.data

/-- Python `' '.join(l)`. -/
def joinSpace (l : List String) : String := String.intercalate " " l

/-! ## Dates -/

/-- A calendar date, as produced by `datetime.strptime` in `parse_date`. -/
structure Date where
  year : Nat
  month : Nat
  day : Nat
deriving DecidableEq

/-- Gregorian leap-year rule (as used by Python `datetime`). -/
def isLeapYear (y : Nat) : Bool :=
  (y % 4 == 0 && y % 100 != 0) || (y % 400 == 0)

/-- Number of days in a month of a given year. -/
def daysInMonth (y m : Nat) : Nat :=
  if m = 2 then (if isLeapYear y then 29 else 28)
  else if m = 4 ∨ m = 6 ∨ m = 9 ∨ m = 11 then 30
  else 31

/-- Successor day in the civil calendar (`timedelta(days=1)` forward). -/
def nextDay (d : Date) : Date :=
  if d.day < daysInMonth d.year d.month then ⟨d.year, d.month, d.day + 1⟩
  else if d.month < 12 then ⟨d.year, d.month + 1, 1⟩
  else ⟨d.year + 1, 1, 1⟩

/-- Predecessor day in the civil calendar (`timedelta(days=1)` backward). -/
def prevDay (d : Date) : Date :=
  if 1 < d.day then ⟨d.year, d.month, d.day - 1⟩
  else if 1 < d.month then ⟨d.year, d.month - 1, daysInMonth d.year (d.month - 1)⟩
  else ⟨d.year - 1, 12, 31⟩

/-- `date + timedelta(days=n)`. -/
def addDays : Date → Nat → Date
  | d, 0 => d
  | d, n + 1 => addDays (nextDay d) n

/-- `date - timedelta(days=n)`. -/
def subDays : Date → Nat → Date
  | d, 0 => d
  | d, n + 1 => subDays (prevDay d) n

/-- Calendar order on dates; SQLite compares the zero-padded
`YYYY-MM-DD` strings, which is exactly this lexicographic order. -/
def dateLe (a b : Date) : Bool :=
  a.year < b.year ||
    (a.year == b.year &&
      (a.month < b.month || (a.month == b.month && a.day ≤ b.day)))

/-- Zero-pad a number below 100 to two digits. -/
def pad2 (n : Nat) : String := if n < 10 then "0" ++ toString n else toString n

/-- Render a date the way `strftime("%Y-%m-%d")` does (for 4-digit years). -/
def dateIso (d : Date) : String :=
  toString d.year ++ "-" ++ pad2 d.month ++ "-" ++ pad2 d.day

/-! ## Cells -/

/-- A value held in one cell of a tabular document, as seen through pandas:
missing (`NaN`), a string, a number, or a datetime. -/
inductive Cell where
  | empty
  | str (s : String)
  | num (q : ℚ)
  | date (d : Date)
deriving DecidableEq

/-- `pd.isna` on a cell value. -/
def cellIsNA : Cell → Bool
  | .empty => true
  | _ => false

/-- Python `str(x)` on a cell value.  `str(nan)` is `"nan"`; an integral
float renders as `"1000.0"`; the rendering of a non-integral numeric is
approximate (no claim depends on it); a datetime renders ISO-like. -/
def cellToString : Cell → String
  | .empty => "nan"
  | .str s => s
  | .num q =>
      if q.den = 1 then toString q.num ++ ".0"
      else toString q.num ++ "/" ++ toString q.den
  | .date d => dateIso d ++ " 00:00:00"

/-! ## Amount cleaning (`BankStatementParser.clean_amount`) -/

/-- Characters kept by the cleaning pass in `clean_amount`:
`c.isdigit() or c == '.'`. -/
def isDigitOrDot (c : Char) : Bool := c.isDigit || c == '.'

/-- Numeric value of a digit list. -/
def digitsVal (l : List Char) : Nat :=
  l.foldl (fun a c => a * 10 + (c.toNat - 48)) 0

/-- Split a character list on a separator character. -/
def splitOnChar (c : Char) (l : List Char) : List (List Char) :=
  match l with
  | [] => [[]]
  | a :: t =>
      let r := splitOnChar c t
      if a == c then [] :: r
      else match r with
        | [] => [[a]]
        | h :: t2 => (a :: h) :: t2

/-- Python `float()` on a string made only of digits and dots: an optional
integer part and an optional fraction part around at most one dot, with at
least one digit overall.  Returns `none` where `float()` raises. -/
def parseDecimal (l : List Char) : Option ℚ :=
  match splitOnChar '.' l with
  | [ip] =>
      if ip.all Char.isDigit && !ip.isEmpty then some (digitsVal ip : ℚ) else none
  | [ip, fp] =>
      if (ip ++ fp).all Char.isDigit && !(ip.isEmpty && fp.isEmpty) then
        some ((digitsVal ip : ℚ) + (digitsVal fp : ℚ) / ((10 : ℚ) ^ fp.length))
      else none
  | _ => none

/-- The string branch of `clean_amount`: strip whitespace, keep only digits
and dots, parse as a float, with parse failure and emptiness giving `0`. -/
def cleanStr (s : String) : ℚ :=
  (parseDecimal ((pyStrip s).data.filter isDigitOrDot)).getD 0

/-- `BankStatementParser.clean_amount`: `NaN`/`None`/`""` become `0.0`;
numbers pass through; strings are stripped, filtered to digits and dots and
parsed, any failure yielding `0.0` (the enclosing `try/except` returns 0). -/
def clean_amount : Cell → ℚ
  | .empty => 0
  | .num q => q
  | .str s => if s = "" then 0 else cleanStr s
  | .date d => cleanStr (cellToString (.date d))

/-! ## Date parsing (`BankStatementParser.parse_date`) -/

/-- `strptime` `%d` field: one or two digits with value 1..31. -/
def matchDay (l : List Char) : Option Nat :=
  if l.all Char.isDigit && !l.isEmpty && l.length ≤ 2 then
    let v := digitsVal l
    if 1 ≤ v ∧ v ≤ 31 then some v else none
  else none

/-- `strptime` `%m` field: one or two digits with value 1..12. -/
def matchMonth (l : List Char) : Option Nat :=
  if l.all Char.isDigit && !l.isEmpty && l.length ≤ 2 then
    let v := digitsVal l
    if 1 ≤ v ∧ v ≤ 12 then some v else none
  else none

/-- `strptime` `%y` field: exactly two digits; 00-68 map into the 2000s and
69-99 into the 1900s. -/
def matchYear2 (l : List Char) : Option Nat :=
  if l.all Char.isDigit && l.length = 2 then
    let v := digitsVal l
    some (if v ≤ 68 then 2000 + v else 1900 + v)
  else none

/-- `strptime` `%Y` field: exactly four digits, and `datetime` requires a
year of at least 1. -/
def matchYear4 (l : List Char) : Option Nat :=
  if l.all Char.isDigit && l.length = 4 then
    let v := digitsVal l
    if 1 ≤ v then some v else none
  else none

/-- The `datetime(year, month, day)` constructor validates the day against
the month length (raising for e.g. 31/02). -/
def mkValidDate (y m d : Nat) : Option Date :=
  if 1 ≤ m ∧ m ≤ 12 ∧ 1 ≤ d ∧ d ≤ daysInMonth y m then some ⟨y, m, d⟩ else none

/-- Parse a stripped string as `%d/%m/%y`, then as `%d/%m/%Y`
(first successful format wins), as `parse_date` does. -/
def parseDateStr (s : String) : Option Date :=
  match splitOnChar '/' (pyStrip s).data with
  | [ds, ms, ys] =>
      (do
        let d ← matchDay ds
        let m ← matchMonth ms
        let y ← matchYear2 ys
        mkValidDate y m d) <|>
      (do
        let d ← matchDay ds
        let m ← matchMonth ms
        let y ← matchYear4 ys
        mkValidDate y m d)
  | _ => none

/-- `BankStatementParser.parse_date`: datetime values pass through, strings
are parsed in the two supported formats, everything else yields `None`. -/
def parse_date : Cell → Option Date
  | .date d => some d
  | .str s => parseDateStr s
  | _ => none

/-! ## Transactions emitted by the parser -/

/-- A transaction record as built by the parser (the dict appended to
`transactions` in `parse_excel_statement` / `parse_pdf_statement`). -/
structure Tx where
  date : Date
  description : String
  reference : String
  type : String
  amount : ℚ
  balance : ℚ
deriving DecidableEq

/-- Build one transaction record from its parts, exactly as both pipelines
do: `type = 'debit' if withdrawal > 0 else 'credit'` and
`amount = withdrawal if withdrawal > 0 else deposit`. -/
def mkTx (date : Date) (desc ref : String) (w dep bal : ℚ) : Tx :=
  { date := date
    description := pyStrip desc
    reference := pyStrip ref
    type := if 0 < w then "debit" else "credit"
    amount := if 0 < w then w else dep
    balance := bal }

/-- Parse-level failures of the statement parser
(`ValueError`s raised in `parse_excel_statement` / `parse_pdf_statement`). -/
inductive ParseError where
  | headerNotFound
  | columnResolution
  | emptyStatement
deriving DecidableEq

/-! ## Excel pipeline (`BankStatementParser.parse_excel_statement`) -/

/-- The row text scanned for header keywords:
`' '.join(str(x).lower() for x in row.values)`. -/
def rowTextLower (row : List Cell) : String :=
  joinSpace (row.map (fun c => pyLower (cellToString c)))

/-- The header predicate of both pipelines: the row text contains `date`,
`narration` and one of `withdrawal` / `debit`, case-insensitively. -/
def isHeaderText (t : String) : Bool :=
  containsSub t "date" && containsSub t "narration" &&
    (containsSub t "withdrawal" || containsSub t "debit")

/-- Does a spreadsheet row qualify as the transaction-table header row? -/
def headerQualifies (row : List Cell) : Bool := isHeaderText (rowTextLower row)

/-- The header-row scan of `parse_excel_statement`: index of the first
qualifying row, `none` when no row qualifies. -/
def locate_header : List (List Cell) → Option Nat
  | [] => none
  | r :: rs =>
      if headerQualifies r then some 0 else (locate_header rs).map (· + 1)

/-- Resolved positions of the six logical columns. -/
structure Cols where
  dateIdx : Nat
  narrationIdx : Nat
  refIdx : Nat
  withdrawalIdx : Nat
  depositIdx : Nat
  balanceIdx : Nat
deriving DecidableEq

/-- First index in a label list satisfying a predicate. -/
def findCol (labels : List String) (p : String → Bool) : Option Nat :=
  match labels with
  | [] => none
  | l :: ls => if p l then some 0 else (findCol ls p).map (· + 1)

/-- Column resolution of `parse_excel_statement`: the header labels are
stripped and lowered, then each logical column is the first label containing
the relevant keyword (the date column must not contain `value`); a missing
column aborts the parse (the `next(...)` call raises). -/
def resolve_columns (header : List Cell) : Option Cols :=
  let labels := header.map (fun c => pyLower (pyStrip (cellToString c)))
  do
    let d ← findCol labels (fun l => containsSub l "date" && !containsSub l "value")
    let n ← findCol labels (fun l => containsSub l "narration")
    let r ← findCol labels (fun l => containsSub l "ref" || containsSub l "chq")
    let w ← findCol labels (fun l => containsSub l "withdrawal" || containsSub l "debit")
    let dep ← findCol labels (fun l => containsSub l "deposit" || containsSub l "credit")
    let b ← findCol labels (fun l => containsSub l "balance")
    pure ⟨d, n, r, w, dep, b⟩

/-- Cell of a row at a column index (rows of a DataFrame share the header
width; a missing entry reads as `NaN`). -/
def cellAt (row : List Cell) (i : Nat) : Cell := row.getD i .empty

/-- The buffer update for a row with a missing date cell: the narration is
appended only when the pending description is already non-empty
(`if current_description: current_description += ' ' + narration`). -/
def appendNarr (buf narr : String) : String :=
  if buf = "" then buf else buf ++ " " ++ narr

/-- The description of an emitted transaction: the pending buffer (when
non-empty) joined with the row narration. -/
def descWith (buf narr : String) : String :=
  if buf = "" then narr else buf ++ " " ++ narr

/-- The row loop of `parse_excel_statement`, carrying the pending
continuation-description buffer `current_description`:
* a row whose narration contains `statement summary` breaks the loop;
* a row with a missing date cell appends its narration to the buffer only
  when the buffer is non-empty, and is otherwise skipped;
* a row whose date does not parse is skipped (buffer untouched);
* a dated row emits a transaction whose description is the buffer (when
  non-empty) joined with its own narration, and resets the buffer. -/
def excelRows (cols : Cols) : List (List Cell) → String → List Tx
  | [], _ => []
  | row :: rest, buf =>
      let narr := cellToString (cellAt row cols.narrationIdx)
      if containsSub (pyLower narr) "statement summary" then []
      else
        let dv := cellAt row cols.dateIdx
        if cellIsNA dv then
          excelRows cols rest (appendNarr buf narr)
        else
          match parse_date dv with
          | none => excelRows cols rest buf
          | some d =>
              mkTx d (descWith buf narr)
                (cellToString (cellAt row cols.refIdx))
                (clean_amount (cellAt row cols.withdrawalIdx))
                (clean_amount (cellAt row cols.depositIdx))
                (clean_amount (cellAt row cols.balanceIdx))
                :: excelRows cols rest ""

/-- `BankStatementParser.parse_excel_statement` on the rows of the sheet:
locate the header, resolve columns from it, process the rows below it, and
fail with `EmptyStatementError` when no transaction was produced. -/
def parse_excel_statement (doc : List (List Cell)) : Except ParseError (List Tx) :=
  match locate_header doc with
  | none => .error .headerNotFound
  | some h =>
      match resolve_columns (doc.getD h []) with
      | none => .error .columnResolution
      | some cols =>
          let ts := excelRows cols (doc.drop (h + 1)) ""
          if ts.isEmpty then .error .emptyStatement else .ok ts

/-! ## PDF pipeline (`BankStatementParser.parse_pdf_statement`) -/

/-- The per-row normalisation of the PDF pipeline:
`str(cell).strip() if cell is not None else ''`. -/
def pdfRowStrs (row : List (Option String)) : List String :=
  row.map (fun c => pyStrip (c.getD ""))

/-- Header test of the PDF pipeline on the normalised row. -/
def pdfHeaderQualifies (rs : List String) : Bool :=
  isHeaderText (pyLower (joinSpace rs))

/-- Summary test of the PDF pipeline: `'statement summary'` occurs in the
joined, lowered row. -/
def pdfSummaryRow (rs : List String) : Bool :=
  containsSub (pyLower (joinSpace rs)) "statement summary"

/-- Skip test of the PDF row loop:
`if not row[0] or 'statement summary' in ' '.join(row).lower(): continue`. -/
def pdfSkip (r0 : String) (rs : List String) : Bool :=
  r0 == "" || pdfSummaryRow rs

/-- The row loop over one PDF-extracted table, carrying the `header_found`
flag.  A header-looking row sets the flag; rows before the header are
skipped; a row with an empty first cell or a summary marker is skipped
(`continue`, not `break`); an unparseable date skips the row; a row with
fewer than 7 cells raises `IndexError` inside the per-row `try` and is
skipped; otherwise the fixed positional columns 0,1,2,4,5,6 build the
transaction. -/
def pdfTableRows : List (List (Option String)) → Bool → List Tx
  | [], _ => []
  | row :: rest, hf =>
      let rs := pdfRowStrs row
      if pdfHeaderQualifies rs then pdfTableRows rest true
      else if !hf then pdfTableRows rest hf
      else
        match rs with
        | [] => pdfTableRows rest hf
        | r0 :: _ =>
            if pdfSkip r0 rs then pdfTableRows rest hf
            else
              match parse_date (.str r0) with
              | none => pdfTableRows rest hf
              | some d =>
                  if 7 ≤ rs.length then
                    mkTx d (rs.getD 1 "") (rs.getD 2 "")
                      (clean_amount (.str (rs.getD 4 "")))
                      (clean_amount (.str (rs.getD 5 "")))
                      (clean_amount (.str (rs.getD 6 "")))
                      :: pdfTableRows rest hf
                  else pdfTableRows rest hf

/-- `BankStatementParser.parse_pdf_statement` on the extracted page/table
grid: every table of every page is processed with a fresh `header_found`
flag, and an empty overall result fails with `EmptyStatementError`. -/
def parse_pdf_statement (pages : List (List (List (List (Option String))))) :
    Except ParseError (List Tx) :=
  let ts := pages.foldl
    (fun acc pg => pg.foldl (fun acc2 tb => acc2 ++ pdfTableRows tb false) acc) []
  if ts.isEmpty then .error .emptyStatement else .ok ts

/-! ## Reconciliation engine (`BudgetTracker` class, SQLite store)

The store is the part of the SQLite database the claims touch: the
`transactions` table, the `validated_expenses` table and the autoincrement
counter.  The `budgets` and `categories` tables are not referenced by any
claim and are omitted. -/

/-- A persisted row of the `transactions` table. -/
structure TxRow where
  id : Nat
  date : Date
  description : String
  reference : Option String
  type : String
  amount : ℚ
  balance : ℚ
  category : Option String
  source : String
deriving DecidableEq

/-- A persisted row of the `validated_expenses` table. -/
structure VRecord where
  manualId : Nat
  bankId : Option Nat
  isValidated : Bool
deriving DecidableEq

/-- The store state. -/
structure DB where
  transactions : List TxRow
  validations : List VRecord
  nextId : Nat
deriving DecidableEq

/-- The freshly set-up store. -/
def DB.empty : DB := ⟨[], [], 1⟩

/-- `BudgetTracker.find_matching_transactions`: debit, bank-sourced rows of
the given amount whose date lies within `tolerance_days` of the base date,
excluding every id that occurs as a non-null `bank_transaction_id` in
`validated_expenses`. -/
def find_matching_transactions (s : DB) (amount : ℚ) (date : Date)
    (tol : Nat) : List TxRow :=
  s.transactions.filter (fun r =>
    r.type == "debit" && r.amount == amount &&
    dateLe (subDays date tol) r.date && dateLe r.date (addDays date tol) &&
    r.source == "bank_statement" &&
    !(s.validations.any (fun v => v.bankId == some r.id)))

/-- `BudgetTracker.validate_expense`: insert one validation record; the
bank id is stored only when the match is accepted
(`bank_transaction_id if is_validated else None`). -/
def validate_expense (s : DB) (manualId : Nat) (bankId : Option Nat)
    (isValidated : Bool) : DB :=
  { s with validations :=
      s.validations ++ [⟨manualId, if isValidated then bankId else none, isValidated⟩] }

/-- One step of the insertion loop of `BudgetTracker.process_bank_statement`:
a duplicate is an existing row agreeing on (date, description, amount, type)
regardless of source; duplicates are only counted, non-duplicates are
inserted with `source='bank_statement'` (category NULL). -/
def ingestOne (s : DB) (added dup : Nat) (t : Tx) : DB × Nat × Nat :=
  if s.transactions.any (fun r =>
      r.date == t.date && r.description == t.description &&
      r.amount == t.amount && r.type == t.type) then
    (s, added, dup + 1)
  else
    ({ s with
        transactions := s.transactions ++
          [⟨s.nextId, t.date, t.description, some t.reference, t.type,
            t.amount, t.balance, none, "bank_statement"⟩]
        nextId := s.nextId + 1 },
      added + 1, dup)

/-- The insertion loop of `BudgetTracker.process_bank_statement` over the
parser output, returning the new store with the added and duplicate counts. -/
def process_statement (s : DB) (ts : List Tx) : DB × Nat × Nat :=
  ts.foldl (fun acc t => ingestOne acc.1 acc.2.1 acc.2.2 t) (s, 0, 0)

/-- `BudgetTracker.add_manual_transaction`: insert a manual row (balance
defaults to 0) and, for debits, immediately search the updated store for
candidate bank matches with the default 5-day tolerance. -/
def add_manual_transaction (s : DB) (date : Date) (description : String)
    (amount : ℚ) (category : Option String) (ttype : String)
    (reference : Option String) : DB × Nat × List TxRow :=
  let row : TxRow :=
    ⟨s.nextId, date, description, reference, ttype, amount, 0, category, "manual"⟩
  let s' := { s with transactions := s.transactions ++ [row], nextId := s.nextId + 1 }
  let cands := if ttype = "debit" then find_matching_transactions s' amount date 5 else []
  (s', s.nextId, cands)

/-- `BudgetTracker.delete_manual_transaction`: look up the row; unless it
exists and has `source='manual'`, fail (the raised `ValueError` is caught
and reported as a failure flag) with the store untouched; otherwise delete,
in one SQL transaction, every validation record whose
`manual_transaction_id` is the id and then the row itself. -/
def delete_manual_transaction (s : DB) (tid : Nat) : DB × Bool :=
  match s.transactions.find? (fun r => r.id == tid) with
  | none => (s, false)
  | some r =>
      if r.source = "manual" then
        ({ s with
            validations := s.validations.filter (fun v => !(v.manualId == tid))
            transactions := s.transactions.filter
              (fun x => !(x.id == tid && x.source == "manual")) },
          true)
      else (s, false)

/-! ## Decidability of parse results -/

instance {ε α : Type} [DecidableEq ε] [DecidableEq α] : DecidableEq (Except ε α)
  | .ok a, .ok b =>
      if h : a = b then .isTrue (by rw [h]) else .isFalse (by intro c; cases c; exact h rfl)
  | .error a, .error b =>
      if h : a = b then .isTrue (by rw [h]) else .isFalse (by intro c; cases c; exact h rfl)
  | .ok _, .error _ => .isFalse (by intro c; cases c)
  | .error _, .ok _ => .isFalse (by intro c; cases c)

/-- A parse outcome is non-silent when it either carries at least one
transaction or is the `EmptyStatementError` failure. -/
def nonSilent : Except ParseError (List Tx) → Bool
  | .ok ts => !ts.isEmpty
  | .error e => e == .emptyStatement

/-- A cell that is not a negative number (every string, missing or datetime
cell, and every non-negative numeric cell). -/
def cellNonNeg : Cell → Bool
  | .num q => decide (0 ≤ q)
  | _ => true

/-- The amount cleaner exactly as the specification words it for string
cells: strip every character that is not a digit or decimal point, parse
the remainder as a decimal, with unparseable or empty values becoming 0.
Used only to compare the code cleaner against the spec sentence. -/
def clean_amount_spec (s : String) : ℚ :=
  (parseDecimal (s.data.filter isDigitOrDot)).getD 0

/-! ## Concrete documents and store traces used by the claims -/

/-- The worked example document of the specification: header, one dated
row, one continuation row; note it has no reference/cheque column. -/
def c1doc : List (List Cell) :=
  [[.str "Date", .str "Narration", .str "Withdrawal", .str "Deposit", .str "Balance"],
   [.str "01/02/24", .str "Rent", .num 1000, .num 0, .num 5000],
   [.str "", .str "(cont\x27d) paid late", .num 0, .num 0, .num 5000]]

/-- The same document with a reference column added, so that column
resolution succeeds. -/
def c1docRef : List (List Cell) :=
  [[.str "Date", .str "Narration", .str "Chq/Ref No", .str "Withdrawal",
    .str "Deposit", .str "Balance"],
   [.str "01/02/24", .str "Rent", .str "R1", .num 1000, .num 0, .num 5000],
   [.str "", .str "(cont\x27d) paid late", .str "", .num 0, .num 0, .num 5000]]

/-- The column layout resolved for `c1docRef`. -/
def c1cols : Cols := ⟨0, 1, 2, 3, 4, 5⟩

/-- The bank transaction of the reconciliation example. -/
def c2tx : Tx := ⟨⟨2024, 2, 1⟩, "Rent", "R1", "debit", 1000, 5000⟩

/-- Store after ingesting the bank transaction (it becomes row id 1). -/
def c2s1 : DB := (process_statement DB.empty [c2tx]).1

/-- Store after adding a matching manual debit (row id 2). -/
def c2s2 : DB :=
  (add_manual_transaction c2s1 ⟨2024, 2, 3⟩ "rent expense" 1000 (some "Other")
    "debit" none).1

/-- Store after accepting the match of manual 2 against bank 1. -/
def c2s3 : DB := validate_expense c2s2 2 (some 1) true

/-- Store after deleting the manual transaction 2 (the accepted validation
record is cascade-deleted with it). -/
def c2s4 : DB := (delete_manual_transaction c2s3 2).1

/-- A second bank transaction ingested on top of `c2s3` (row id 3). -/
def c2s5 : DB :=
  (process_statement c2s3 [⟨⟨2024, 2, 2⟩, "Taxi", "R2", "debit", 1000, 4000⟩]).1

/-- The persisted form of the bank transaction in `c2s1`. -/
def c2row1 : TxRow :=
  ⟨1, ⟨2024, 2, 1⟩, "Rent", some "R1", "debit", 1000, 5000, none, "bank_statement"⟩

/-- The persisted form of the second bank transaction in `c2s5`. -/
def c2row3 : TxRow :=
  ⟨3, ⟨2024, 2, 2⟩, "Taxi", some "R2", "debit", 1000, 4000, none, "bank_statement"⟩

/-- A store holding one manually entered row, used to show that the
duplicate test ignores the source of the existing row. -/
def c3store : DB :=
  ⟨[⟨1, ⟨2024, 2, 1⟩, "Rent", none, "debit", 1000, 0, some "Other", "manual"⟩], [], 2⟩

/-- A PDF page/table grid with a transaction row on each side of a
statement-summary row. -/
def c7pages : List (List (List (List (Option String)))) :=
  [[[
    [some "Date", some "Narration", some "Chq/Ref", some "Value Dt",
     some "Withdrawal Amt", some "Deposit Amt", some "Closing Balance"],
    [some "01/02/24", some "Before", some "r1", some "", some "100", some "0", some "500"],
    [some "02/02/24", some "STATEMENT SUMMARY :", some "", some "", some "", some "", some ""],
    [some "03/02/24", some "After", some "r2", some "", some "200", some "0", some "300"]]]]

/-- A spreadsheet whose only transaction row has a negative numeric deposit
cell and no withdrawal. -/
def c9doc : List (List Cell) :=
  [[.str "Date", .str "Narration", .str "Ref No", .str "Withdrawal",
    .str "Deposit", .str "Balance"],
   [.str "01/02/24", .str "Refund adj", .str "r1", .num 0, .num (-50), .num 100]]

/-! ## Helper lemmas -/

theorem ws_not_digitdot (c : Char) (h : isWS c = true) : isDigitOrDot c = false := by
  simp only [isWS, Char.isWhitespace, Bool.or_eq_true, decide_eq_true_eq] at h
  rcases h with ((h | h) | h) | h <;> subst h <;> decide

theorem filter_dropWhile_ws (l : List Char) :
    (l.dropWhile isWS).filter isDigitOrDot = l.filter isDigitOrDot := by
  induction l with
  | nil => rfl
  | cons a t ih =>
      cases h : isWS a with
      | false => simp [List.dropWhile_cons, h]
      | true => simp [List.dropWhile_cons, h, ih, List.filter_cons, ws_not_digitdot a h]

theorem filter_trimAux (l : List Char) :
    (trimAux l).filter isDigitOrDot = l.filter isDigitOrDot := by
  unfold trimAux
  rw [List.filter_reverse, filter_dropWhile_ws, List.filter_reverse,
    filter_dropWhile_ws, List.reverse_reverse]

theorem parseDecimal_nonneg {l : List Char} {q : ℚ}
    (h : parseDecimal l = some q) : 0 ≤ q := by
  unfold parseDecimal at h
  split at h
  · split at h
    · cases h; exact Nat.cast_nonneg _
    · cases h
  · split at h
    · cases h; positivity
    · cases h
  · cases h

theorem parseDecimal_eq_two {l ip fp : List Char}
    (hs : splitOnChar '.' l = [ip, fp])
    (hd : ((ip ++ fp).all Char.isDigit && !(ip.isEmpty && fp.isEmpty)) = true) :
    parseDecimal l =
      some ((digitsVal ip : ℚ) + (digitsVal fp : ℚ) / (10 : ℚ) ^ fp.length) := by
  unfold parseDecimal
  rw [hs]
  exact if_pos hd

theorem cleanStr_nonneg (s : String) : 0 ≤ cleanStr s := by
  unfold cleanStr
  cases h : parseDecimal ((pyStrip s).data.filter isDigitOrDot) with
  | none => simp
  | some q => simpa using parseDecimal_nonneg h

theorem clean_amount_nonneg {c : Cell} (h : cellNonNeg c = true) :
    0 ≤ clean_amount c := by
  cases c with
  | empty => simp [clean_amount]
  | num q => simpa [clean_amount, cellNonNeg] using h
  | str s =>
      by_cases hs : s = "" <;> simp [clean_amount, hs, cleanStr_nonneg]
  | date d => simpa [clean_amount] using cleanStr_nonneg (cellToString (.date d))

theorem getD_prop {α : Type} (P : α → Prop) (l : List α) (i : Nat) (d : α)
    (hl : ∀ x ∈ l, P x) (hd : P d) : P (l.getD i d) := by
  induction l generalizing i with
  | nil => simpa [List.getD] using hd
  | cons a t ih =>
      cases i with
      | zero => simpa [List.getD] using hl a (by simp)
      | succ n =>
          simp only [List.getD_cons_succ]
          exact ih n (fun x hx => hl x (by simp [hx]))

/-! ## Claim theorems -/

/-- C8: for every string-valued amount cell the cleaner strips every
character that is not a digit or decimal point and parses the remainder as
a decimal, unparseable or empty values becoming 0 (it agrees everywhere
with the cleaner transcribed from the spec sentence); in particular
`"1,234.56 INR"` cleans to `1234.56`, and both the missing value and the
empty string clean to `0.0`. -/
theorem c8_amount_cleaning :
    (∀ s : String, clean_amount (.str s) = clean_amount_spec s)
    ∧ clean_amount (.str "1,234.56 INR") = 1234.56
    ∧ clean_amount .empty = 0
    ∧ clean_amount (.str "") = 0 := by
  refine ⟨fun s => ?_, ?_, rfl, rfl⟩
  · by_cases hs : s = ""
    · subst hs; decide
    · show (if s = "" then 0 else cleanStr s) = _
      rw [if_neg hs]
      unfold cleanStr clean_amount_spec pyStrip
      rw [show (⟨trimAux s.data⟩ : String).data = trimAux s.data from rfl,
        filter_trimAux]
  · show (if ("1,234.56 INR" : String) = "" then (0 : ℚ)
        else cleanStr "1,234.56 INR") = 1234.56
    rw [if_neg (by decide)]
    have h1 : (pyStrip "1,234.56 INR").data.filter isDigitOrDot =
        ['1', '2', '3', '4', '.', '5', '6'] := by decide
    unfold cleanStr
    rw [h1]
    have h2 : splitOnChar '.' ['1', '2', '3', '4', '.', '5', '6'] =
        [['1', '2', '3', '4'], ['5', '6']] := by decide
    rw [parseDecimal_eq_two h2 (by decide)]
    have h3 : digitsVal ['1', '2', '3', '4'] = 1234 := by decide
    have h4 : digitsVal ['5', '6'] = 56 := by decide
    simp only [Option.getD_some, h3, h4, List.length_cons, List.length_nil]
    norm_num

/-- C10: the amount cleaner is total and never raises — in this embedding
it is a total function into `ℚ`, every failure branch of the Python code
returning `0.0` — every string input cleans to a non-negative value
(sign characters are stripped before parsing), missing and datetime inputs
are non-negative as well, and numeric inputs pass through unchanged,
including negative ones. -/
theorem c10_cleaner_nonneg_passthrough :
    (∀ s : String, 0 ≤ clean_amount (.str s))
    ∧ (∀ d : Date, 0 ≤ clean_amount (.date d))
    ∧ clean_amount .empty = 0
    ∧ (∀ q : ℚ, clean_amount (.num q) = q)
    ∧ clean_amount (.num (-5)) = -5 := by
  refine ⟨fun s => ?_, fun d => ?_, rfl, fun q => rfl, rfl⟩
  · exact clean_amount_nonneg (c := .str s) rfl
  · exact clean_amount_nonneg (c := .date d) rfl

/-- C1 counterexample: on the exact example document the spreadsheet parse
yields no transaction at all — it aborts because the document has no
reference/cheque column, so column resolution fails (and even with such a
column, the continuation narration would be dropped, see the amended
theorem). -/
theorem c1_counterexample :
    parse_excel_statement c1doc = .error .columnResolution := by decide

/-- C1 amended: the exact example document fails with a column-resolution
error (it lacks the reference/cheque column the parser requires); on the
same document extended with a reference column, the parse locates the
header at index 0 and yields exactly one transaction with date 2024-02-01,
kind debit, amount 1000, balance 5000, but with description `"Rent"`: a row
whose date cell is empty is skipped and its narration dropped, because the
pending-description buffer is only appended to when it is already
non-empty, and it is empty at every such row (it starts empty and resets at
every emitted transaction).  The last conjunct states the general form:
with an empty buffer, a non-summary row with a missing date cell leaves the
parse unchanged. -/
theorem c1_amended :
    parse_excel_statement c1doc = .error .columnResolution
    ∧ locate_header c1doc = some 0
    ∧ parse_excel_statement c1docRef =
        .ok [⟨⟨2024, 2, 1⟩, "Rent", "R1", "debit", 1000, 5000⟩]
    ∧ (∀ (cols : Cols) (rest : List (List Cell)) (row : List Cell),
        cellIsNA (cellAt row cols.dateIdx) = true →
        containsSub (pyLower (cellToString (cellAt row cols.narrationIdx)))
          "statement summary" = false →
        excelRows cols (row :: rest) "" = excelRows cols rest "") := by
  refine ⟨by decide, by decide, by decide, fun cols rest row h1 h2 => ?_⟩
  simp [excelRows, h1, h2, appendNarr]

/-- Witness for C1: the continuation-drop rule applied to a concrete
dateless row. -/
theorem c1_amended_witness :
    excelRows c1cols
        [[Cell.empty, Cell.str "note", Cell.empty, Cell.empty, Cell.empty, Cell.empty]]
        "" =
      excelRows c1cols [] "" :=
  c1_amended.2.2.2 c1cols []
    [Cell.empty, Cell.str "note", Cell.empty, Cell.empty, Cell.empty, Cell.empty]
    (by decide) (by decide)

/-- C2 counterexample: the exclusion of an accepted bank transaction is not
permanent.  After ingesting bank row 1, adding manual row 2 and accepting
the match (store `c2s3`), `find_matches` indeed returns nothing; but after
the public operation `delete_manual(2)` cascade-deletes the validation
record (store `c2s4`), a future `find_matches` returns bank row 1 again. -/
theorem c2_counterexample :
    find_matching_transactions c2s3 1000 ⟨2024, 2, 3⟩ 5 = []
    ∧ (delete_manual_transaction c2s3 2).2 = true
    ∧ (find_matching_transactions c2s4 1000 ⟨2024, 2, 3⟩ 5).map (·.id) = [1] := by
  decide

/-- C2 amended: in every store state, `find_matches` never returns a bank
transaction referenced by the (non-null) bank id of any stored
ValidationRecord — in particular by an accepted one — so an accepted bank
id stays excluded for as long as its record exists, i.e. until the
referencing manual transaction is deleted; and `validate` stores the bank
id exactly when the match is accepted, a declined validation storing a null
bank reference and hence excluding nothing. -/
theorem c2_amended :
    (∀ (s : DB) (amount : ℚ) (date : Date) (tol : Nat) (r : TxRow),
        r ∈ find_matching_transactions s amount date tol →
        ∀ v ∈ s.validations, v.bankId ≠ some r.id)
    ∧ (∀ (s : DB) (m : Nat) (b : Option Nat),
        (validate_expense s m b true).validations = s.validations ++ [⟨m, b, true⟩])
    ∧ (∀ (s : DB) (m : Nat) (b : Option Nat),
        (validate_expense s m b false).validations =
          s.validations ++ [⟨m, none, false⟩]) := by
  refine ⟨fun s a d tol r hr v hv heq => ?_, fun s m b => rfl, fun s m b => rfl⟩
  rcases List.mem_filter.mp hr with ⟨-, hpred⟩
  simp only [Bool.and_eq_true, Bool.not_eq_true'] at hpred
  have h2 : s.validations.any (fun v2 => v2.bankId == some r.id) = true :=
    List.any_eq_true.mpr ⟨v, hv, by simp [heq]⟩
  rw [hpred.2] at h2
  exact Bool.false_ne_true h2

/-- Witness for C2: in store `c2s5` (which holds the accepted record for
bank row 1 and a fresh bank row 3), the candidate row 3 returned by
`find_matches` is not the one referenced by the accepted record. -/
theorem c2_amended_witness :
    (⟨2, some 1, true⟩ : VRecord).bankId ≠ some c2row3.id :=
  c2_amended.1 c2s5 1000 ⟨2024, 2, 3⟩ 5 c2row3 (by decide) ⟨2, some 1, true⟩
    (by decide)

/-- C3: ingest deduplication round-trip.  For every store and every parsed
transaction: when a persisted row with identical (date, description,
amount, kind) exists — the test ignores the existing row's source — the
ingest step increments only the duplicate count and leaves the store, in
particular its row list, unchanged; when no such row exists, the
transaction is appended as a row with `source='bank_statement'` and the
added count is incremented. -/
theorem c3_ingest_dedup :
    ∀ (s : DB) (added dup : Nat) (t : Tx),
      ((∃ r ∈ s.transactions, r.date = t.date ∧ r.description = t.description ∧
          r.amount = t.amount ∧ r.type = t.type) →
        ingestOne s added dup t = (s, added, dup + 1))
      ∧ (¬(∃ r ∈ s.transactions, r.date = t.date ∧ r.description = t.description ∧
          r.amount = t.amount ∧ r.type = t.type) →
        ingestOne s added dup t =
          ({ s with
              transactions := s.transactions ++
                [⟨s.nextId, t.date, t.description, some t.reference, t.type,
                  t.amount, t.balance, none, "bank_statement"⟩]
              nextId := s.nextId + 1 },
            added + 1, dup)) := by
  intro s added dup t
  have hiff : (s.transactions.any (fun r =>
      r.date == t.date && r.description == t.description &&
      r.amount == t.amount && r.type == t.type)) = true ↔
      (∃ r ∈ s.transactions, r.date = t.date ∧ r.description = t.description ∧
        r.amount = t.amount ∧ r.type = t.type) := by
    rw [List.any_eq_true]
    constructor
    · rintro ⟨r, hr, hp⟩
      simp only [Bool.and_eq_true, beq_iff_eq] at hp
      exact ⟨r, hr, hp.1.1.1, hp.1.1.2, hp.1.2, hp.2⟩
    · rintro ⟨r, hr, h1, h2, h3, h4⟩
      exact ⟨r, hr, by simp [h1, h2, h3, h4]⟩
  constructor <;> intro h
  · unfold ingestOne
    rw [if_pos (hiff.mpr h)]
  · unfold ingestOne
    rw [if_neg (fun hc => h (hiff.mp hc))]

/-- Witness for C3: ingesting the bank-parsed `Rent` transaction into a
store already holding an identical manually-sourced row only bumps the
duplicate count, while ingesting it into the empty store inserts it as a
bank row. -/
theorem c3_ingest_dedup_witness :
    ingestOne c3store 0 0 c2tx = (c3store, 0, 1)
    ∧ ingestOne DB.empty 0 0 c2tx =
      ({ DB.empty with
          transactions := DB.empty.transactions ++
            [⟨DB.empty.nextId, c2tx.date, c2tx.description, some c2tx.reference,
              c2tx.type, c2tx.amount, c2tx.balance, none, "bank_statement"⟩]
          nextId := DB.empty.nextId + 1 },
        1, 0) :=
  ⟨(c3_ingest_dedup c3store 0 0 c2tx).1 (by decide),
   (c3_ingest_dedup DB.empty 0 0 c2tx).2 (by decide)⟩

/-- C4: `delete_manual` fails, leaving the store untouched, whenever the
referenced transaction does not exist or its source is not `'manual'`
(in particular for every bank-sourced id); when it is manual, the single
returned store has every validation record referencing the id removed and
the transaction row itself removed — in this sequential embedding the two
deletions take effect together in the one result state, mirroring the SQL
transaction around them. -/
theorem c4_delete_manual :
    ∀ (s : DB) (tid : Nat) (r : TxRow),
      (s.transactions.find? (fun x => x.id == tid) = none →
        delete_manual_transaction s tid = (s, false))
      ∧ (s.transactions.find? (fun x => x.id == tid) = some r →
          r.source ≠ "manual" →
        delete_manual_transaction s tid = (s, false))
      ∧ (s.transactions.find? (fun x => x.id == tid) = some r →
          r.source = "manual" →
        delete_manual_transaction s tid =
          ({ s with
              validations := s.validations.filter (fun v => !(v.manualId == tid))
              transactions := s.transactions.filter
                (fun x => !(x.id == tid && x.source == "manual")) },
            true))
      ∧ (s.transactions.find? (fun x => x.id == tid) = some r →
          r.source = "manual" →
        ((delete_manual_transaction s tid).1.validations.all
            (fun v => !(v.manualId == tid))) = true
        ∧ ((delete_manual_transaction s tid).1.transactions.all
            (fun x => !(x.id == tid && x.source == "manual"))) = true) := by
  intro s tid r
  refine ⟨fun hf => ?_, fun hf hs => ?_, fun hf hs => ?_, fun hf hs => ?_⟩
  · unfold delete_manual_transaction
    rw [hf]
  · unfold delete_manual_transaction
    rw [hf]
    dsimp only
    rw [if_neg hs]
  · unfold delete_manual_transaction
    rw [hf]
    dsimp only
    rw [if_pos hs]
  · have hd : delete_manual_transaction s tid =
        ({ s with
            validations := s.validations.filter (fun v => !(v.manualId == tid))
            transactions := s.transactions.filter
              (fun x => !(x.id == tid && x.source == "manual")) },
          true) := by
      unfold delete_manual_transaction
      rw [hf]
      dsimp only
      rw [if_pos hs]
    rw [hd]
    exact ⟨List.all_eq_true.mpr (fun v hv => (List.mem_filter.mp hv).2),
      List.all_eq_true.mpr (fun x hx => (List.mem_filter.mp hx).2)⟩

/-- Witness for C4: deleting the bank-sourced row 1 of `c2s1` fails and
mutates nothing; deleting the manual row 2 of `c2s3` deletes the
validation record referencing it together with the row. -/
theorem c4_delete_manual_witness :
    delete_manual_transaction c2s1 1 = (c2s1, false)
    ∧ delete_manual_transaction c2s3 2 =
      ({ c2s3 with
          validations := c2s3.validations.filter (fun v => !(v.manualId == 2))
          transactions := c2s3.transactions.filter
            (fun x => !(x.id == 2 && x.source == "manual")) },
        true)
    ∧ ((delete_manual_transaction c2s3 2).1.validations.all
        (fun v => !(v.manualId == 2))) = true :=
  ⟨(c4_delete_manual c2s1 1 c2row1).2.1 (by decide) (by decide),
   ((c4_delete_manual c2s3 2
      ⟨2, ⟨2024, 2, 3⟩, "rent expense", none, "debit", 1000, 0, some "Other",
        "manual"⟩).2.2.1 (by decide) (by decide)),
   ((c4_delete_manual c2s3 2
      ⟨2, ⟨2024, 2, 3⟩, "rent expense", none, "debit", 1000, 0, some "Other",
        "manual"⟩).2.2.2 (by decide) (by decide)).1⟩

/-- C5 counterexample: the specification example document has a locatable
header (index 0), yet the parse neither yields a transaction nor fails with
`EmptyStatementError` — it fails with the column-resolution error, because
the document lacks a reference/cheque column. -/
theorem c5_counterexample :
    locate_header c1doc = some 0
    ∧ parse_excel_statement c1doc = .error .columnResolution
    ∧ parse_excel_statement c1doc ≠ .error .emptyStatement := by decide

/-- C5 amended: for every document whose header is locatable AND whose
required columns resolve, the spreadsheet parse yields at least one
transaction or fails with `EmptyStatementError`; moreover, in both
pipelines a parse never silently returns an empty result (`ok []` is
impossible), and the PDF pipeline can only fail with
`EmptyStatementError`. -/
theorem c5_amended :
    (∀ (doc : List (List Cell)) (h : Nat) (cols : Cols),
        locate_header doc = some h →
        resolve_columns (doc.getD h []) = some cols →
        nonSilent (parse_excel_statement doc) = true)
    ∧ (∀ (doc : List (List Cell)) (ts : List Tx),
        parse_excel_statement doc = .ok ts → ts ≠ [])
    ∧ (∀ (pages : List (List (List (List (Option String))))) (ts : List Tx),
        parse_pdf_statement pages = .ok ts → ts ≠ [])
    ∧ (∀ pages : List (List (List (List (Option String)))),
        nonSilent (parse_pdf_statement pages) = true) := by
  refine ⟨fun doc h cols h1 h2 => ?_, fun doc ts hok => ?_,
    fun pages ts hok => ?_, fun pages => ?_⟩
  · unfold parse_excel_statement
    rw [h1]
    dsimp only
    rw [h2]
    dsimp only
    cases hE : (excelRows cols (doc.drop (h + 1)) "").isEmpty with
    | true => simp [hE, nonSilent]
    | false => simp [hE, nonSilent]
  · unfold parse_excel_statement at hok
    cases hL : locate_header doc with
    | none => rw [hL] at hok; cases hok
    | some hh =>
        rw [hL] at hok
        dsimp only at hok
        cases hR : resolve_columns (doc.getD hh []) with
        | none => rw [hR] at hok; cases hok
        | some cols =>
            rw [hR] at hok
            dsimp only at hok
            cases hE : (excelRows cols (doc.drop (hh + 1)) "").isEmpty with
            | true => rw [if_pos hE] at hok; cases hok
            | false =>
                rw [if_neg (by simp [hE])] at hok
                cases hok
                intro hnil
                rw [hnil] at hE
                cases hE
  · unfold parse_pdf_statement at hok
    dsimp only at hok
    cases hE : (pages.foldl
        (fun acc pg => pg.foldl (fun acc2 tb => acc2 ++ pdfTableRows tb false) acc)
        []).isEmpty with
    | true => rw [if_pos hE] at hok; cases hok
    | false =>
        rw [if_neg (by simp [hE])] at hok
        cases hok
        intro hnil
        rw [hnil] at hE
        cases hE
  · unfold parse_pdf_statement
    cases hE : (pages.foldl
        (fun acc pg => pg.foldl (fun acc2 tb => acc2 ++ pdfTableRows tb false) acc)
        []).isEmpty with
    | true => simp [hE, nonSilent]
    | false => simp [hE, nonSilent]

/-- Witness for C5: the example document with a reference column resolves
and parses non-silently, and its parse result is non-empty. -/
theorem c5_amended_witness :
    nonSilent (parse_excel_statement c1docRef) = true
    ∧ ([⟨⟨2024, 2, 1⟩, "Rent", "R1", "debit", 1000, 5000⟩] : List Tx) ≠ []
    ∧ ([⟨⟨2024, 2, 1⟩, "Before", "r1", "debit", 100, 500⟩,
        ⟨⟨2024, 2, 3⟩, "After", "r2", "debit", 200, 300⟩] : List Tx) ≠ [] :=
  ⟨c5_amended.1 c1docRef 0 c1cols (by decide) (by decide),
   c5_amended.2.1 c1docRef _ (by decide),
   c5_amended.2.2.1 c7pages _ (by decide)⟩

/-- C6: scanning top to bottom, a located header index points at a row
satisfying the header predicate (case-insensitive presence of `date`,
`narration` and one of `withdrawal`/`debit` in the joined row text) and
every row above it fails the predicate; and when no row of the document
qualifies, the whole parse aborts with the header-not-found error, so no
partial results are produced. -/
theorem c6_header_location :
    (∀ (rows : List (List Cell)) (i : Nat),
        locate_header rows = some i →
        headerQualifies (rows.getD i []) = true
        ∧ (rows.take i).all (fun r => !headerQualifies r) = true)
    ∧ (∀ rows : List (List Cell),
        (∀ r ∈ rows, headerQualifies r = false) →
        parse_excel_statement rows = .error .headerNotFound) := by
  have hnone : ∀ rows : List (List Cell),
      (∀ r ∈ rows, headerQualifies r = false) → locate_header rows = none := by
    intro rows
    induction rows with
    | nil => intro _; rfl
    | cons r rs ih =>
        intro h
        unfold locate_header
        rw [if_neg (by simp [h r (by simp)]), ih (fun x hx => h x (by simp [hx]))]
        rfl
  constructor
  · intro rows
    induction rows with
    | nil => intro i h; cases h
    | cons r rs ih =>
        intro i h
        unfold locate_header at h
        by_cases hq : headerQualifies r = true
        · rw [if_pos hq] at h
          cases h
          exact ⟨hq, rfl⟩
        · rw [if_neg hq] at h
          cases hL : locate_header rs with
          | none => rw [hL] at h; cases h
          | some j =>
              rw [hL] at h
              cases h
              rcases ih j hL with ⟨h1, h2⟩
              refine ⟨h1, ?_⟩
              have hq' : headerQualifies r = false := by
                cases hqc : headerQualifies r
                · rfl
                · exact absurd hqc hq
              simp [List.take_succ_cons, List.all_cons, h2, hq']
  · intro rows h
    unfold parse_excel_statement
    rw [hnone rows h]

/-- Witness for C6: the example document locates its header at row 0, and a
document with no qualifying row aborts with the header-not-found error. -/
theorem c6_header_location_witness :
    (headerQualifies (c1doc.getD 0 []) = true
      ∧ (c1doc.take 0).all (fun r => !headerQualifies r) = true)
    ∧ parse_excel_statement [[Cell.str "opening balance"]] =
        .error .headerNotFound :=
  ⟨c6_header_location.1 c1doc 0 (by decide),
   c6_header_location.2 [[Cell.str "opening balance"]] (by decide)⟩

theorem mkTx_amount_nonneg {d : Date} {desc ref : String} {w dep bal : ℚ}
    (hw : 0 ≤ w) (hdep : 0 ≤ dep) : 0 ≤ (mkTx d desc ref w dep bal).amount := by
  unfold mkTx
  dsimp only
  split <;> assumption

theorem mkTx_type_cases {d : Date} {desc ref : String} {w dep bal : ℚ} :
    (mkTx d desc ref w dep bal).type = "debit"
      ∨ (mkTx d desc ref w dep bal).type = "credit" := by
  unfold mkTx
  dsimp only
  split
  · exact Or.inl rfl
  · exact Or.inr rfl

theorem excelRows_inv (cols : Cols) :
    ∀ (rows : List (List Cell)) (buf : String),
      (∀ row ∈ rows, ∀ c ∈ row, cellNonNeg c = true) →
      ∀ t ∈ excelRows cols rows buf,
        0 ≤ t.amount ∧ (t.type = "debit" ∨ t.type = "credit") := by
  intro rows
  induction rows with
  | nil => intro buf _ t ht; cases ht
  | cons row rest ih =>
      intro buf hcells t ht
      have hrest : ∀ r ∈ rest, ∀ c ∈ r, cellNonNeg c = true :=
        fun r hr => hcells r (by simp [hr])
      have hcell : ∀ i : Nat, cellNonNeg (cellAt row i) = true := by
        intro i
        exact getD_prop (fun c => cellNonNeg c = true) row i .empty
          (hcells row (by simp)) rfl
      unfold excelRows at ht
      dsimp only at ht
      split at ht
      · cases ht
      · split at ht
        · exact ih _ hrest t ht
        · split at ht
          · exact ih buf hrest t ht
          · rcases List.mem_cons.mp ht with h | h
            · subst h
              exact ⟨mkTx_amount_nonneg
                  (clean_amount_nonneg (hcell cols.withdrawalIdx))
                  (clean_amount_nonneg (hcell cols.depositIdx)),
                mkTx_type_cases⟩
            · exact ih "" hrest t h

theorem pdfTableRows_inv :
    ∀ (tb : List (List (Option String))) (hf : Bool),
      ∀ t ∈ pdfTableRows tb hf,
        0 ≤ t.amount ∧ (t.type = "debit" ∨ t.type = "credit") := by
  intro tb
  induction tb with
  | nil => intro hf t ht; cases ht
  | cons row rest ih =>
      intro hf t ht
      unfold pdfTableRows at ht
      dsimp only at ht
      split at ht
      · exact ih true t ht
      · split at ht
        · exact ih hf t ht
        · split at ht
          · exact ih hf t ht
          · split at ht
            · exact ih hf t ht
            · split at ht
              · exact ih hf t ht
              · split at ht
                · rcases List.mem_cons.mp ht with h | h
                  · subst h
                    exact ⟨mkTx_amount_nonneg
                        (clean_amount_nonneg
                          (c := .str ((pdfRowStrs row).getD 4 "")) rfl)
                        (clean_amount_nonneg
                          (c := .str ((pdfRowStrs row).getD 5 "")) rfl),
                      mkTx_type_cases⟩
                  · exact ih hf t h
                · exact ih hf t ht

theorem pdf_page_fold_inv {P : Tx → Prop}
    (hP : ∀ tb, ∀ t ∈ pdfTableRows tb false, P t) :
    ∀ (pg : List (List (List (Option String)))) (acc : List Tx),
      (∀ t ∈ acc, P t) →
      ∀ t ∈ pg.foldl (fun a2 tb => a2 ++ pdfTableRows tb false) acc, P t := by
  intro pg
  induction pg with
  | nil => intro acc h t ht; exact h t ht
  | cons tb rest ih =>
      intro acc h t ht
      refine ih (acc ++ pdfTableRows tb false) (fun t2 ht2 => ?_) t ht
      rcases List.mem_append.mp ht2 with h2 | h2
      · exact h t2 h2
      · exact hP tb t2 h2

theorem pdf_fold_inv {P : Tx → Prop}
    (hP : ∀ tb, ∀ t ∈ pdfTableRows tb false, P t) :
    ∀ (pgs : List (List (List (List (Option String))))) (acc : List Tx),
      (∀ t ∈ acc, P t) →
      ∀ t ∈ pgs.foldl
        (fun acc2 pg => pg.foldl (fun a2 tb => a2 ++ pdfTableRows tb false) acc2)
        acc, P t := by
  intro pgs
  induction pgs with
  | nil => intro acc h t ht; exact h t ht
  | cons pg rest ih =>
      intro acc h t ht
      exact ih _ (fun t2 ht2 => pdf_page_fold_inv hP pg acc h t2 ht2) t ht

/-- C7 counterexample: in the PDF pipeline a statement-summary row does not
terminate processing.  On a table holding a dated row, then a summary row,
then another dated row, the parse returns both transactions — the row after
the marker still contributes one. -/
theorem c7_counterexample :
    parse_pdf_statement c7pages =
      .ok [⟨⟨2024, 2, 1⟩, "Before", "r1", "debit", 100, 500⟩,
           ⟨⟨2024, 2, 3⟩, "After", "r2", "debit", 200, 300⟩] := by decide

/-- C7 amended: in the spreadsheet pipeline a row whose narration cell
contains the statement-summary marker terminates row processing (every row
after it is ignored); in the PDF pipeline such a row (when it does not look
like a header row) is merely skipped: processing continues as if the row
were absent, so later rows still contribute transactions. -/
theorem c7_amended :
    (∀ (cols : Cols) (pre post : List (List Cell)) (row : List Cell)
        (buf : String),
        containsSub (pyLower (cellToString (cellAt row cols.narrationIdx)))
          "statement summary" = true →
        excelRows cols (pre ++ row :: post) buf = excelRows cols (pre ++ [row]) buf)
    ∧ (∀ (pre post : List (List (Option String))) (row : List (Option String))
        (hf : Bool),
        pdfHeaderQualifies (pdfRowStrs row) = false →
        pdfSummaryRow (pdfRowStrs row) = true →
        pdfTableRows (pre ++ row :: post) hf = pdfTableRows (pre ++ post) hf) := by
  constructor
  · intro cols pre
    induction pre with
    | nil =>
        intro post row buf hsum
        simp only [List.nil_append]
        unfold excelRows
        dsimp only
        rw [if_pos hsum, if_pos hsum]
    | cons a t ih =>
        intro post row buf hsum
        simp only [List.cons_append]
        unfold excelRows
        dsimp only
        split
        · rfl
        · split
          · exact ih post row _ hsum
          · split
            · exact ih post row buf hsum
            · rw [ih post row "" hsum]
  · intro pre
    induction pre with
    | nil =>
        intro post row hf h1 h2
        simp only [List.nil_append]
        conv_lhs => unfold pdfTableRows
        rw [if_neg (by simp [h1])]
        cases hf with
        | false => simp
        | true =>
            simp only [Bool.not_true, Bool.false_eq_true, if_false]
            cases hrs : pdfRowStrs row with
            | nil => rfl
            | cons r0 rtl =>
                rw [hrs] at h2
                simp [pdfSkip, h2]
    | cons a t ih =>
        intro post row hf h1 h2
        simp only [List.cons_append]
        unfold pdfTableRows
        dsimp only
        split
        · exact ih post row true h1 h2
        · split
          · exact ih post row hf h1 h2
          · split
            · exact ih post row hf h1 h2
            · split
              · exact ih post row hf h1 h2
              · split
                · exact ih post row hf h1 h2
                · split
                  · rw [ih post row hf h1 h2]
                  · exact ih post row hf h1 h2

/-- Witness for C7: the termination rule on a concrete spreadsheet summary
row, and the skip rule on the concrete PDF summary row of the
counterexample table. -/
theorem c7_amended_witness :
    excelRows c1cols
        ([[Cell.str "01/02/24", Cell.str "Statement Summary :", Cell.str "",
           Cell.num 0, Cell.num 0, Cell.num 0],
          [Cell.str "02/02/24", Cell.str "Late", Cell.str "r9", Cell.num 7,
           Cell.num 0, Cell.num 1]] : List (List Cell)) "" =
      excelRows c1cols
        [[Cell.str "01/02/24", Cell.str "Statement Summary :", Cell.str "",
          Cell.num 0, Cell.num 0, Cell.num 0]] ""
    ∧ pdfTableRows
        ([[some "02/02/24", some "STATEMENT SUMMARY :", some "", some "",
           some "", some "", some ""],
          [some "03/02/24", some "After", some "r2", some "", some "200",
           some "0", some "300"]] : List (List (Option String))) true =
      pdfTableRows
        [[some "03/02/24", some "After", some "r2", some "", some "200",
          some "0", some "300"]] true := by
  constructor
  · exact c7_amended.1 c1cols []
      [[Cell.str "02/02/24", Cell.str "Late", Cell.str "r9", Cell.num 7,
        Cell.num 0, Cell.num 1]]
      [Cell.str "01/02/24", Cell.str "Statement Summary :", Cell.str "",
       Cell.num 0, Cell.num 0, Cell.num 0] "" (by decide)
  · exact c7_amended.2 []
      [[some "03/02/24", some "After", some "r2", some "", some "200",
        some "0", some "300"]]
      [some "02/02/24", some "STATEMENT SUMMARY :", some "", some "", some "",
       some "", some ""] true (by decide) (by decide)

/-- C9 counterexample: a spreadsheet transaction row whose withdrawal is 0
and whose deposit cell is the negative number −50 is emitted as a credit
transaction of amount −50 — the parser output does not satisfy
`amount ≥ 0`. -/
theorem c9_counterexample :
    parse_excel_statement c9doc =
      .ok [⟨⟨2024, 2, 1⟩, "Refund adj", "r1", "credit", -50, 100⟩]
    ∧ ¬(0 : ℚ) ≤ -50 := by decide

/-- C9 amended: every emitted transaction has kind debit exactly when the
cleaned withdrawal is positive, with the amount equal to the withdrawal in
that case and the deposit otherwise, and kind is always one of
debit/credit; `amount ≥ 0` holds for the spreadsheet pipeline whenever no
cell of the document is a negative number (a negative numeric cell passes
through the cleaner unchanged, which is what the counterexample exploits),
and it holds unconditionally for the PDF pipeline, whose cells are always
strings. -/
theorem c9_amended :
    (∀ (d : Date) (desc ref : String) (w dep bal : ℚ),
        ((mkTx d desc ref w dep bal).type = "debit"
          ∨ (mkTx d desc ref w dep bal).type = "credit")
        ∧ ((mkTx d desc ref w dep bal).type = "debit" ↔ 0 < w)
        ∧ (mkTx d desc ref w dep bal).amount = if 0 < w then w else dep)
    ∧ (∀ (doc : List (List Cell)) (ts : List Tx),
        parse_excel_statement doc = .ok ts →
        (∀ row ∈ doc, ∀ c ∈ row, cellNonNeg c = true) →
        ∀ t ∈ ts, 0 ≤ t.amount ∧ (t.type = "debit" ∨ t.type = "credit"))
    ∧ (∀ (pages : List (List (List (List (Option String))))) (ts : List Tx),
        parse_pdf_statement pages = .ok ts →
        ∀ t ∈ ts, 0 ≤ t.amount ∧ (t.type = "debit" ∨ t.type = "credit")) := by
  refine ⟨fun d desc ref w dep bal => ?_, fun doc ts hok hcells => ?_,
    fun pages ts hok => ?_⟩
  · refine ⟨?_, ?_, rfl⟩
    · by_cases h : 0 < w
      · exact Or.inl (by simp [mkTx, h])
      · exact Or.inr (by simp [mkTx, h])
    · constructor
      · intro ht
        by_contra h
        simp [mkTx, h] at ht
      · intro h
        simp [mkTx, h]
  · unfold parse_excel_statement at hok
    cases hL : locate_header doc with
    | none => rw [hL] at hok; cases hok
    | some hh =>
        rw [hL] at hok
        dsimp only at hok
        cases hR : resolve_columns (doc.getD hh []) with
        | none => rw [hR] at hok; cases hok
        | some cols =>
            rw [hR] at hok
            dsimp only at hok
            cases hE : (excelRows cols (doc.drop (hh + 1)) "").isEmpty with
            | true => rw [if_pos hE] at hok; cases hok
            | false =>
                rw [if_neg (by simp [hE])] at hok
                cases hok
                exact excelRows_inv cols (doc.drop (hh + 1)) ""
                  (fun row hr => hcells row (List.drop_subset _ _ hr))
  · unfold parse_pdf_statement at hok
    dsimp only at hok
    cases hE : (pages.foldl
        (fun acc pg => pg.foldl (fun acc2 tb => acc2 ++ pdfTableRows tb false) acc)
        []).isEmpty with
    | true => rw [if_pos hE] at hok; cases hok
    | false =>
        rw [if_neg (by simp [hE])] at hok
        cases hok
        exact pdf_fold_inv (fun tb => pdfTableRows_inv tb false) pages []
          (fun t2 ht2 => by cases ht2)

/-- Witness for C9: the invariant instantiated on the transaction parsed
from the reference-column example document (all of whose cells are
non-negative) and on the first transaction of the PDF example. -/
theorem c9_amended_witness :
    (0 ≤ (⟨⟨2024, 2, 1⟩, "Rent", "R1", "debit", 1000, 5000⟩ : Tx).amount
      ∧ ((⟨⟨2024, 2, 1⟩, "Rent", "R1", "debit", 1000, 5000⟩ : Tx).type = "debit"
        ∨ (⟨⟨2024, 2, 1⟩, "Rent", "R1", "debit", 1000, 5000⟩ : Tx).type = "credit"))
    ∧ (0 ≤ (⟨⟨2024, 2, 1⟩, "Before", "r1", "debit", 100, 500⟩ : Tx).amount
      ∧ ((⟨⟨2024, 2, 1⟩, "Before", "r1", "debit", 100, 500⟩ : Tx).type = "debit"
        ∨ (⟨⟨2024, 2, 1⟩, "Before", "r1", "debit", 100, 500⟩ : Tx).type = "credit")) :=
  ⟨c9_amended.2.1 c1docRef
      [⟨⟨2024, 2, 1⟩, "Rent", "R1", "debit", 1000, 5000⟩]
      (by decide) (by decide) _ (by decide),
   c9_amended.2.2 c7pages
      [⟨⟨2024, 2, 1⟩, "Before", "r1", "debit", 100, 500⟩,
       ⟨⟨2024, 2, 3⟩, "After", "r2", "debit", 200, 300⟩]
      (by decide) _ (by decide)⟩

end BudgetTracker
